import Mathlib

/-!
Verification development for the dual-session streaming client
(Interactive Multimodal AI Buddy). Each definition is a shallow
embedding of a function of the repository; the theorems settle the
frozen claims about the audio encoder, the playback scheduler, the
dual-socket orchestrator and the device adapters.

Sources embedded:
- src/frontend/public/audio-processor.js (AudioProcessor.process)
- src/frontend/src/hooks/useAudio.ts (getAudioContext, playAudio, stop)
- src/frontend/src/hooks/useMicrophone.ts (startMicrophone, stopMicrophone)
- src/frontend/src/hooks/useCamera.ts (startCamera, stopCamera)
- the dual-socket AssistantScreen component (socket setup effect, its
  open/error/message handlers, the effect cleanup, the mute toggle
  effect and handleLogout)
-/

set_option maxHeartbeats 1000000

/-! ## Audio encoder (src/frontend/public/audio-processor.js)

The worklet converts each Float32 sample to Int16 by
  s = Math.max(-1, Math.min(1, x)); int16Data[i] = s < 0 ? s * 0x8000 : s * 0x7FFF
where the store into an Int16Array performs the JavaScript ToInt16
conversion: truncation toward zero, then wrap modulo 2^16 into
[-32768, 32767]. Samples are modelled as rationals. -/

namespace AudioProcessor

/-- Clamp of line 20 of audio-processor.js: Math.max(-1, Math.min(1, x)). -/
def clampSample (x : ℚ) : ℚ := max (-1) (min 1 x)

/-- Asymmetric scale of line 21: s < 0 ? s * 0x8000 : s * 0x7FFF. -/
def scaleSample (s : ℚ) : ℚ := if s < 0 then s * 32768 else s * 32767

/-- JavaScript truncation toward zero (the integer step of ToInt16):
ceiling for negative values, floor otherwise. -/
def jsTrunc (q : ℚ) : ℤ := if q < 0 then ⌈q⌉ else ⌊q⌋

/-- JavaScript ToInt16: truncate toward zero, wrap modulo 2^16 into
the signed 16-bit range. This is what storing into an Int16Array does. -/
def toInt16 (q : ℚ) : ℤ :=
  if 32768 ≤ jsTrunc q % 65536 then jsTrunc q % 65536 - 65536 else jsTrunc q % 65536

/-- One sample through lines 20 and 21 of AudioProcessor.process. -/
def processSample (x : ℚ) : ℤ := toInt16 (scaleSample (clampSample x))

/-- The conversion loop of AudioProcessor.process over one input frame. -/
def process (input : List ℚ) : List ℤ := input.map processSample

end AudioProcessor

/-! ## Playback scheduler (src/frontend/src/hooks/useAudio.ts)

The hook owns one output AudioContext and a cursor nextStartTimeRef.
Base64 payload decoding to Int16 and the float normalization by 32768
only affect the sample values inside the buffer, which no claim
inspects; the buffer is modelled by its shape (channels, length,
declared sample rate). -/

namespace UseAudio

inductive CtxState
  | running
  | suspended
  | closed
deriving DecidableEq

/-- An AudioContext as the hook sees it: its fixed sample rate and state. -/
structure AudioCtx where
  sampleRate : ℕ
  state : CtxState
deriving DecidableEq

/-- Result of audioContext.createBuffer(numberOfChannels, length, sampleRate). -/
structure AudioBuffer where
  numberOfChannels : ℕ
  length : ℕ
  sampleRate : ℕ
deriving DecidableEq

/-- The duration of an AudioBuffer is length divided by sample rate, in seconds. -/
def AudioBuffer.duration (b : AudioBuffer) : ℚ := (b.length : ℚ) / (b.sampleRate : ℚ)

/-- State held by the useAudio hook: the context ref, the playback cursor,
the set of active sources (modelled by its size) and the isPlaying flag. -/
structure AudioHook where
  audioContextRef : Option AudioCtx
  nextStartTime : ℚ
  activeSources : ℕ
  isPlaying : Bool
deriving DecidableEq

/-- Lines 9 to 15 of useAudio.ts: reuse the context unless the ref is null
or the context is closed; on (re)creation the cursor is reset to 0. -/
def getAudioContext (sampleRate : ℕ) (s : AudioHook) : AudioCtx × AudioHook :=
  match s.audioContextRef with
  | some ctx =>
      if ctx.state = CtxState.closed then
        (⟨sampleRate, CtxState.running⟩,
         { s with audioContextRef := some ⟨sampleRate, CtxState.running⟩, nextStartTime := 0 })
      else (ctx, s)
  | none =>
      (⟨sampleRate, CtxState.running⟩,
       { s with audioContextRef := some ⟨sampleRate, CtxState.running⟩, nextStartTime := 0 })

/-- What one call to playAudio produces: the context it played through,
the buffer it built, the scheduled start time, and the new hook state. -/
structure PlayResult where
  ctx : AudioCtx
  buffer : AudioBuffer
  startAt : ℚ
  hook : AudioHook
deriving DecidableEq

/-- Lines 17 to 80 of useAudio.ts. audioDataBytes is the byte length of the
decoded base64 payload; currentTime is audioContext.currentTime when the
call runs. The Int16 pairs become float samples, so the buffer length is
the byte count divided by two. -/
def playAudio (audioDataBytes : ℕ) (sampleRate : ℕ) (currentTime : ℚ)
    (s : AudioHook) : PlayResult :=
  let p := getAudioContext sampleRate s
  let ctx0 := p.1
  let s := p.2
  -- resume the context if suspended (browser autoplay policy)
  let ctx := if ctx0.state = CtxState.suspended then { ctx0 with state := CtxState.running } else ctx0
  let s := { s with audioContextRef := some ctx }
  -- atob and byte copy, then Int16Array view: two bytes per sample
  let floatLen := audioDataBytes / 2
  -- createBuffer(1, float32Array.length, sampleRate)
  let buffer : AudioBuffer := ⟨1, floatLen, sampleRate⟩
  -- if (nextStartTimeRef.current < currentTime) nextStartTimeRef.current = currentTime
  let next := if s.nextStartTime < currentTime then currentTime else s.nextStartTime
  -- source.start(next); nextStartTimeRef.current += audioBuffer.duration
  { ctx := ctx
    buffer := buffer
    startAt := next
    hook := { s with nextStartTime := next + buffer.duration
                     activeSources := s.activeSources + 1
                     isPlaying := true } }

/-- Lines 82 to 100 of useAudio.ts: stop every active source, close the
context if it is not already closed (nulling the ref), reset the cursor. -/
def stop (s : AudioHook) : AudioHook :=
  let s := { s with activeSources := 0 }
  let s :=
    match s.audioContextRef with
    | some ctx =>
        if ctx.state ≠ CtxState.closed then { s with audioContextRef := none }
        else s
    | none => s
  { s with nextStartTime := 0, isPlaying := false }

/-- One inbound audio reply chunk as the scheduler receives it: payload
byte length, declared sample rate, and the device clock at arrival. -/
structure ChunkMsg where
  dataBytes : ℕ
  sampleRate : ℕ
  arrivalTime : ℚ
deriving DecidableEq

/-- A sequence of chunks through playAudio in arrival order; returns the
(start, duration) pair of every scheduled chunk and the final hook state. -/
def playSeq : AudioHook → List ChunkMsg → List (ℚ × ℚ) × AudioHook
  | s, [] => ([], s)
  | s, m :: ms =>
      let r := playAudio m.dataBytes m.sampleRate m.arrivalTime s
      let rest := playSeq r.hook ms
      ((r.startAt, r.buffer.duration) :: rest.1, rest.2)

/-- The hook holds a context that is not closed. -/
def liveCtx (s : AudioHook) : Prop :=
  ∃ c, s.audioContextRef = some c ∧ c.state ≠ CtxState.closed

end UseAudio

/-! ## Microphone adapter (src/frontend/src/hooks/useMicrophone.ts)

Platform handles handed out by getUserMedia are numbered in acquisition
order; releasedHandles records every handle whose tracks were stopped. -/

namespace UseMicrophone

structure MicState where
  streamRef : Option ℕ
  audioContextRef : Bool
  workletNodeRef : Bool
  sourceRef : Bool
  isActive : Bool
  acquiredCount : ℕ
  releasedHandles : List ℕ
deriving DecidableEq

/-- Lines 10 to 48 of useMicrophone.ts, success path: getUserMedia hands
out a fresh exclusive handle, a capture context and worklet are built,
and every ref is overwritten unconditionally. -/
def startMicrophone (m : MicState) : MicState :=
  { streamRef := some m.acquiredCount
    audioContextRef := true
    workletNodeRef := true
    sourceRef := true
    isActive := true
    acquiredCount := m.acquiredCount + 1
    releasedHandles := m.releasedHandles }

/-- Lines 50 to 72 of useMicrophone.ts: each ref is released only if it is
non-null, then nulled; the stream handle tracks are stopped last. -/
def stopMicrophone (m : MicState) : MicState :=
  let m := if m.sourceRef then { m with sourceRef := false } else m
  let m := if m.workletNodeRef then { m with workletNodeRef := false } else m
  let m := if m.audioContextRef then { m with audioContextRef := false } else m
  let m :=
    match m.streamRef with
    | some h => { m with streamRef := none, releasedHandles := m.releasedHandles ++ [h] }
    | none => m
  { m with isActive := false }

/-- Handles acquired and never released. -/
def MicState.liveHandles (m : MicState) : ℕ := m.acquiredCount - m.releasedHandles.length

end UseMicrophone

/-! ## Camera adapter (src/frontend/src/hooks/useCamera.ts) -/

namespace UseCamera

structure CamState where
  streamRef : Option ℕ
  isActive : Bool
  acquiredCount : ℕ
  releasedHandles : List ℕ
deriving DecidableEq

/-- Lines 9 to 63 of useCamera.ts, success path. -/
def startCamera (c : CamState) : CamState :=
  { streamRef := some c.acquiredCount
    isActive := true
    acquiredCount := c.acquiredCount + 1
    releasedHandles := c.releasedHandles }

/-- Lines 65 to 75 of useCamera.ts: stop tracks only when a stream is held. -/
def stopCamera (c : CamState) : CamState :=
  match c.streamRef with
  | some h =>
      { c with streamRef := none, isActive := false,
               releasedHandles := c.releasedHandles ++ [h] }
  | none => c

end UseCamera

/-! ## Dual-socket orchestrator (the AssistantScreen component)

WebSocket behaviour follows the WHATWG living standard: send throws an
InvalidStateError while the socket is CONNECTING, delivers while OPEN,
and is silently discarded while CLOSING or CLOSED; close never throws
and moves any not-yet-closed socket to CLOSING. -/

namespace Orchestrator

inductive ReadyState
  | connecting
  | opened
  | closing
  | closed
deriving DecidableEq

/-- One WebSocket: its readyState and the application messages sent on it.
Messages are recorded by their wire tag: the identity message is the
username, envelopes are recorded as type:audio, type:video, type:close
and event:close. -/
structure Sock where
  readyState : ReadyState
  sent : List String
deriving DecidableEq

/-- ws.close(): never throws; a socket that is not yet closed goes to CLOSING. -/
def wsClose (w : Sock) : Sock :=
  if w.readyState = ReadyState.closed then w else { w with readyState := ReadyState.closing }

/-- ws.send(msg): InvalidStateError on CONNECTING, delivered on OPEN,
silently discarded on CLOSING and CLOSED. -/
def wsSendE (w : Sock) (msg : String) : Except String Sock :=
  if w.readyState = ReadyState.connecting then Except.error "InvalidStateError"
  else if w.readyState = ReadyState.opened then Except.ok { w with sent := w.sent ++ [msg] }
  else Except.ok w

inductive AiState
  | listening
  | thinking
  | speaking
deriving DecidableEq

/-- Inbound cognition envelopes. The state_update payload is optional
because the handler guards on message.state being present. -/
inductive CognitionEvent
  | reasoning_complete (context : String)
  | memory_stored (content : String)
  | state_update (state : Option AiState)
deriving DecidableEq

/-- State of the AssistantScreen component and the hooks it owns. -/
structure Orch where
  hasUser : Bool
  mode : String
  isMuted : Bool
  isCameraOn : Bool
  aiState : AiState
  cognitionStatus : String
  isCleanedUp : Bool
  intentionalClose : Bool
  audioWsRef : Option Sock
  cognitionWsRef : Option Sock
  audioCreated : ℕ
  cogCreated : ℕ
  frameInterval : Bool
  mic : UseMicrophone.MicState
  camera : UseCamera.CamState
  playback : UseAudio.AudioHook
  loggedErrors : ℕ
deriving DecidableEq

/-- The socket-creation part of the main useEffect (the StrictMode guard
and the two new WebSocket calls). The guard skips only when a ref is set
and one of the two sockets is OPEN; otherwise two fresh CONNECTING
sockets are created and both refs are overwritten. -/
def start (s : Orch) : Orch :=
  if s.hasUser = false then s
  else if (s.audioWsRef.isSome ∨ s.cognitionWsRef.isSome) ∧
          (s.audioWsRef.map Sock.readyState = some ReadyState.opened ∨
           s.cognitionWsRef.map Sock.readyState = some ReadyState.opened) then
    -- the effect resets both guard flags before the guard returns early
    { s with isCleanedUp := false, intentionalClose := false }
  else
    { s with isCleanedUp := false
             intentionalClose := false
             audioWsRef := some ⟨ReadyState.connecting, []⟩
             cognitionWsRef := some ⟨ReadyState.connecting, []⟩
             audioCreated := s.audioCreated + 1
             cogCreated := s.cogCreated + 1 }

/-- audioWs.onopen. The handler closes over the created socket, passed
here explicitly; when teardown already ran it sends nothing and closes
the socket at once, otherwise it sends the identity message, starts the
microphone when not muted, and installs the frame interval. -/
def audioOnOpen (username : String) (s : Orch) (audioWs : Sock) : Orch × Sock :=
  if s.isCleanedUp then
    ({ s with intentionalClose := true }, wsClose audioWs)
  else
    let audioWs := { audioWs with sent := audioWs.sent ++ [username] }
    let s := if s.isMuted = false then { s with mic := UseMicrophone.startMicrophone s.mic } else s
    ({ s with frameInterval := true }, audioWs)

/-- cognitionWs.onopen: same teardown guard; otherwise send identity and
mark the cognition status connected. -/
def cognitionOnOpen (username : String) (s : Orch) (cognitionWs : Sock) : Orch × Sock :=
  if s.isCleanedUp then
    ({ s with intentionalClose := true }, wsClose cognitionWs)
  else
    let cognitionWs := { cognitionWs with sent := cognitionWs.sent ++ [username] }
    ({ s with cognitionStatus := "connected" }, cognitionWs)

/-- audioWs.onmessage for an audio_reply envelope: play the chunk and
flip the activity state to speaking with a 1000 ms revert timer. The
returned option is the setTimeout the handler schedules. -/
def audioOnMessage (dataBytes : ℕ) (sample_rate : Option ℕ) (currentTime : ℚ)
    (s : Orch) : Orch × Option (AiState × ℕ) :=
  if s.isCleanedUp then (s, none)
  else
    let r := UseAudio.playAudio dataBytes (sample_rate.getD 24000) currentTime s.playback
    ({ s with playback := r.hook, aiState := AiState.speaking }, some (AiState.listening, 1000))

/-- cognitionWs.onmessage, lines 126 to 151 of the dual-socket component.
The returned option is the setTimeout the handler schedules. -/
def cognitionOnMessage (ev : CognitionEvent) (s : Orch) : Orch × Option (AiState × ℕ) :=
  if s.isCleanedUp then (s, none)
  else
    match ev with
    | CognitionEvent.reasoning_complete _ =>
        ({ s with aiState := AiState.thinking }, some (AiState.listening, 800))
    | CognitionEvent.memory_stored _ => (s, none)
    | CognitionEvent.state_update st =>
        match st with
        | some v => ({ s with aiState := v }, none)
        | none => (s, none)

/-- audioWs.onerror of the dual-socket component: log unless the close
was intentional; nothing else. -/
def audioOnError (s : Orch) : Orch :=
  if s.intentionalClose = false then { s with loggedErrors := s.loggedErrors + 1 } else s

/-- cognitionWs.onerror: log unless intentional, then set the cognition
status to error. -/
def cognitionOnError (s : Orch) : Orch :=
  let s := if s.intentionalClose = false then { s with loggedErrors := s.loggedErrors + 1 } else s
  { s with cognitionStatus := "error" }

/-- Body of the guarded close inside the effect cleanup: send the close
envelope only when the socket is OPEN, then close it. Fallible, to show
where an exception could arise before the surrounding catch. -/
def cleanupSockBody (w : Sock) (env : String) : Except String Sock :=
  match (if w.readyState = ReadyState.opened then wsSendE w env else Except.ok w) with
  | Except.ok w1 => Except.ok (wsClose w1)
  | Except.error e => Except.error e

/-- The try/catch around the socket close in the effect cleanup: the body
runs only for OPEN or CONNECTING sockets and every error is suppressed. -/
def cleanupSock (w : Sock) (env : String) : Sock :=
  if w.readyState = ReadyState.opened ∨ w.readyState = ReadyState.connecting then
    match cleanupSockBody w env with
    | Except.ok w2 => w2
    | Except.error _ => w
  else w

/-- The effect cleanup (teardown), lines 168 to 207 of the dual-socket
component: set both guard flags, cancel the frame interval, close both
sockets with errors suppressed, null both refs, then release the
microphone, the camera and the playback context. The two sockets are the
ones the cleanup closure captured. -/
def cleanup (s : Orch) (audioWs cognitionWs : Sock) : Orch × Sock × Sock :=
  let s := { s with isCleanedUp := true, intentionalClose := true }
  let s := { s with frameInterval := false }
  let audioWs := cleanupSock audioWs "type:close"
  let cognitionWs := cleanupSock cognitionWs "event:close"
  let s := { s with audioWsRef := none, cognitionWsRef := none }
  let s := { s with mic := UseMicrophone.stopMicrophone s.mic }
  let s := { s with camera := UseCamera.stopCamera s.camera }
  let s := { s with playback := UseAudio.stop s.playback }
  (s, audioWs, cognitionWs)

/-- handleLogout, lines 233 to 243: for each non-null ref, send the close
envelope and close the socket, with no readyState guard and no try/catch,
then switch to the login screen. -/
def handleLogoutE (s : Orch) : Except String Orch := do
  let s ←
    match s.audioWsRef with
    | some w => do
        let w ← wsSendE w "type:close"
        Except.ok { s with audioWsRef := some (wsClose w) }
    | none => Except.ok s
  let s ←
    match s.cognitionWsRef with
    | some w => do
        let w ← wsSendE w "event:close"
        Except.ok { s with cognitionWsRef := some (wsClose w) }
    | none => Except.ok s
  Except.ok { s with mode := "login" }

/-- The mute-toggle useEffect, lines 219 to 231: muted stops only the
microphone; unmuted restarts it only when the audio socket ref is OPEN. -/
def muteEffect (s : Orch) : Orch :=
  if s.isMuted then { s with mic := UseMicrophone.stopMicrophone s.mic }
  else if s.audioWsRef.map Sock.readyState = some ReadyState.opened then
    { s with mic := UseMicrophone.startMicrophone s.mic }
  else s

/-- The onData callback the mute-toggle effect wires into the restarted
microphone: encode and send an audio envelope on the audio socket ref,
only while that socket is OPEN and the user is not muted. -/
def micOnData (s : Orch) : Orch :=
  match s.audioWsRef with
  | some w =>
      if w.readyState = ReadyState.opened ∧ s.isMuted = false then
        { s with audioWsRef := some { w with sent := w.sent ++ ["type:audio"] } }
      else s
  | none => s

/-- A concrete component state right after the first effect run created
both sockets (both still CONNECTING); used to instantiate the theorems. -/
def baseState : Orch where
  hasUser := true
  mode := "assistant"
  isMuted := false
  isCameraOn := true
  aiState := AiState.listening
  cognitionStatus := "disconnected"
  isCleanedUp := false
  intentionalClose := false
  audioWsRef := some ⟨ReadyState.connecting, []⟩
  cognitionWsRef := some ⟨ReadyState.connecting, []⟩
  audioCreated := 1
  cogCreated := 1
  frameInterval := false
  mic := ⟨none, false, false, false, false, 0, []⟩
  camera := ⟨none, false, 0, []⟩
  playback := ⟨none, 0, 0, false⟩
  loggedErrors := 0

end Orchestrator

/-! ## Lemmas about the audio encoder -/

lemma AudioProcessor.clampSample_mem (x : ℚ) : -1 ≤ clampSample x ∧ clampSample x ≤ 1 := by
  unfold clampSample
  constructor
  · exact le_max_left _ _
  · exact max_le (by norm_num) (min_le_left _ _)

lemma AudioProcessor.scale_bounds (x : ℚ) :
    -32768 ≤ scaleSample (clampSample x) ∧ scaleSample (clampSample x) ≤ 32767 := by
  obtain ⟨hlo, hhi⟩ := clampSample_mem x
  unfold scaleSample
  set s := clampSample x with hs
  by_cases hneg : s < 0
  · simp only [hneg, if_true]
    constructor
    · nlinarith
    · nlinarith
  · simp only [hneg, if_false]
    push_neg at hneg
    constructor
    · nlinarith
    · nlinarith

lemma AudioProcessor.jsTrunc_bounds (x : ℚ) :
    -32768 ≤ jsTrunc (scaleSample (clampSample x)) ∧
      jsTrunc (scaleSample (clampSample x)) ≤ 32767 := by
  obtain ⟨hlo, hhi⟩ := scale_bounds x
  unfold jsTrunc
  set y := scaleSample (clampSample x) with hy
  by_cases hneg : y < 0
  · simp only [hneg, if_true]
    constructor
    · have : ((-32768 : ℤ) : ℚ) ≤ y := by exact_mod_cast hlo
      calc (-32768 : ℤ) = ⌈((-32768 : ℤ) : ℚ)⌉ := (Int.ceil_intCast _).symm
        _ ≤ ⌈y⌉ := Int.ceil_le_ceil this
    · have h0 : ⌈y⌉ ≤ 0 := by
        rw [Int.ceil_le]
        push_cast
        linarith
      omega
  · simp only [hneg, if_false]
    push_neg at hneg
    constructor
    · have h0 : (0 : ℤ) ≤ ⌊y⌋ := by
        rw [Int.le_floor]
        push_cast
        linarith
      omega
    · have : y ≤ ((32767 : ℤ) : ℚ) := by exact_mod_cast hhi
      calc ⌊y⌋ ≤ ⌊((32767 : ℤ) : ℚ)⌋ := Int.floor_le_floor this
        _ = 32767 := Int.floor_intCast _

/-- In range, the 16-bit store does not wrap: ToInt16 is plain truncation. -/
lemma AudioProcessor.toInt16_of_bounds (q : ℚ)
    (hlo : -32768 ≤ jsTrunc q) (hhi : jsTrunc q ≤ 32767) :
    toInt16 q = jsTrunc q := by
  unfold toInt16
  split <;> omega

/-! ## Claim theorems for the audio encoder -/

/-- C1: the encoder maps every sample x to a signed 16-bit integer equal to
the truncation of the clamped, asymmetrically scaled value (no 16-bit wrap
occurs), and the reference frame [1, -1, 0, 1/2] encodes to
[32767, -32768, 0, 16383]. -/
theorem C1_encoder_clamp_scale :
    (∀ x : ℚ,
        AudioProcessor.processSample x =
          AudioProcessor.jsTrunc
            (AudioProcessor.scaleSample (AudioProcessor.clampSample x)) ∧
        -32768 ≤ AudioProcessor.processSample x ∧
        AudioProcessor.processSample x ≤ 32767) ∧
    AudioProcessor.process [1, -1, 0, 1/2] = [32767, -32768, 0, 16383] := by
  constructor
  · intro x
    obtain ⟨hlo, hhi⟩ := AudioProcessor.jsTrunc_bounds x
    have heq : AudioProcessor.processSample x =
        AudioProcessor.jsTrunc
          (AudioProcessor.scaleSample (AudioProcessor.clampSample x)) :=
      AudioProcessor.toInt16_of_bounds _ hlo hhi
    exact ⟨heq, by rw [heq]; exact hlo, by rw [heq]; exact hhi⟩
  · have h1 : AudioProcessor.processSample 1 = 32767 := by
      unfold AudioProcessor.processSample AudioProcessor.toInt16
        AudioProcessor.jsTrunc AudioProcessor.scaleSample AudioProcessor.clampSample
      norm_num
    have h2 : AudioProcessor.processSample (-1) = -32768 := by
      unfold AudioProcessor.processSample AudioProcessor.toInt16
        AudioProcessor.jsTrunc AudioProcessor.scaleSample AudioProcessor.clampSample
      norm_num
      rw [show ⌈(-32768 : ℚ)⌉ = -32768 from by decide]
      decide
    have h3 : AudioProcessor.processSample 0 = 0 := by
      unfold AudioProcessor.processSample AudioProcessor.toInt16
        AudioProcessor.jsTrunc AudioProcessor.scaleSample AudioProcessor.clampSample
      norm_num
    have h4 : AudioProcessor.processSample (1/2) = 16383 := by
      unfold AudioProcessor.processSample AudioProcessor.toInt16
        AudioProcessor.jsTrunc AudioProcessor.scaleSample AudioProcessor.clampSample
      norm_num
    simp only [AudioProcessor.process, List.map]
    rw [h1, h2, h3, h4]

/-! ## Lemmas about the playback scheduler -/

/-- The catch-up branch of playAudio computes a maximum. -/
lemma UseAudio.catchUp_eq_max (a b : ℚ) : (if a < b then b else a) = max a b := by
  rcases lt_or_ge a b with hlt | hge
  · rw [if_pos hlt, max_eq_right (le_of_lt hlt)]
  · rw [if_neg (not_lt_of_ge hge), max_eq_left hge]

/-- Buffer durations are never negative. -/
lemma UseAudio.duration_nonneg (b : AudioBuffer) : 0 ≤ b.duration := by
  unfold AudioBuffer.duration
  positivity

/-- With a live context, getAudioContext returns it and changes nothing. -/
lemma UseAudio.getAudioContext_live (r : ℕ) (s : AudioHook) (h : liveCtx s) :
    ∃ c, s.audioContextRef = some c ∧ c.state ≠ CtxState.closed ∧
      getAudioContext r s = (c, s) := by
  obtain ⟨c, hc, hcs⟩ := h
  refine ⟨c, hc, hcs, ?_⟩
  unfold getAudioContext
  rw [hc]
  simp [hcs]

/-- Cursor law of one playAudio call on a live context: the chunk starts at
the maximum of the cursor and the clock, the cursor advances by exactly the
buffer duration, never decreases, and the context stays live. -/
lemma UseAudio.playAudio_cursor (b r : ℕ) (t : ℚ) (s : AudioHook) (h : liveCtx s) :
    (playAudio b r t s).startAt = max s.nextStartTime t ∧
    (playAudio b r t s).hook.nextStartTime =
      (playAudio b r t s).startAt + (playAudio b r t s).buffer.duration ∧
    s.nextStartTime ≤ (playAudio b r t s).hook.nextStartTime ∧
    liveCtx (playAudio b r t s).hook := by
  obtain ⟨c, hc, hcs, hget⟩ := getAudioContext_live r s h
  unfold playAudio
  rw [hget]
  refine ⟨catchUp_eq_max _ _, rfl, ?_, ?_⟩
  · have hd : (0 : ℚ) ≤ ((b / 2 : ℕ) : ℚ) / (r : ℚ) := by positivity
    have hm : s.nextStartTime ≤ max s.nextStartTime t := le_max_left _ _
    simp only [catchUp_eq_max, AudioBuffer.duration]
    linarith
  · refine ⟨if c.state = CtxState.suspended then { c with state := CtxState.running } else c,
      rfl, ?_⟩
    split
    · simp
    · exact hcs

/-- Every chunk scheduled by playSeq on a live context starts at or after
the initial cursor, and the final state keeps a live context with a cursor
at or above the initial one. -/
lemma UseAudio.playSeq_ge (s : AudioHook) (ms : List ChunkMsg) (h : liveCtx s) :
    (∀ p ∈ (playSeq s ms).1, s.nextStartTime ≤ p.1) ∧
    s.nextStartTime ≤ (playSeq s ms).2.nextStartTime ∧
    liveCtx (playSeq s ms).2 := by
  induction ms generalizing s with
  | nil =>
    refine ⟨?_, le_refl _, h⟩
    intro p hp
    exact absurd hp (List.not_mem_nil p)
  | cons m ms ih =>
    obtain ⟨hstart, hadv, hmono, hlive⟩ :=
      playAudio_cursor m.dataBytes m.sampleRate m.arrivalTime s h
    obtain ⟨ihmem, ihnext, ihlive⟩ := ih _ hlive
    refine ⟨?_, ?_, ?_⟩
    · intro p hp
      simp only [playSeq, List.mem_cons] at hp
      rcases hp with hp | hp
      · have hle : s.nextStartTime ≤
            (playAudio m.dataBytes m.sampleRate m.arrivalTime s).startAt := by
          rw [hstart]; exact le_max_left _ _
        rw [hp]
        exact hle
      · exact le_trans hmono (ihmem p hp)
    · simpa only [playSeq] using le_trans hmono ihnext
    · simpa only [playSeq] using ihlive

/-- Chunks scheduled by playSeq on a live context never overlap: each
chunk starts at or after the scheduled end of every earlier chunk. -/
lemma UseAudio.playSeq_pairwise (s : AudioHook) (ms : List ChunkMsg) (h : liveCtx s) :
    (playSeq s ms).1.Pairwise (fun a c => a.1 + a.2 ≤ c.1) := by
  induction ms generalizing s with
  | nil => exact List.Pairwise.nil
  | cons m ms ih =>
    obtain ⟨hstart, hadv, hmono, hlive⟩ :=
      playAudio_cursor m.dataBytes m.sampleRate m.arrivalTime s h
    have hmem := (playSeq_ge _ ms hlive).1
    simp only [playSeq]
    refine List.Pairwise.cons ?_ (ih _ hlive)
    intro p hp
    have hle := hmem p hp
    exact le_of_eq_of_le hadv.symm hle

/-! ## Claim theorem for the playback scheduler -/

/-- C2: on a live output context, every playAudio call schedules its chunk
at max(next_start_time, clock) and advances the cursor by exactly the
buffer duration, the cursor never decreases (including across a whole
chunk sequence), the stall case starts at the clock, and no two chunks of
any sequence overlap: each starts at or after the scheduled end of every
earlier one. -/
theorem C2_gapless_playback (s0 : UseAudio.AudioHook) (ms : List UseAudio.ChunkMsg)
    (h : UseAudio.liveCtx s0) :
    (∀ (b r : ℕ) (t : ℚ) (s : UseAudio.AudioHook), UseAudio.liveCtx s →
        (UseAudio.playAudio b r t s).startAt = max s.nextStartTime t ∧
        (UseAudio.playAudio b r t s).hook.nextStartTime =
          (UseAudio.playAudio b r t s).startAt +
            (UseAudio.playAudio b r t s).buffer.duration ∧
        s.nextStartTime ≤ (UseAudio.playAudio b r t s).hook.nextStartTime ∧
        (s.nextStartTime < t → (UseAudio.playAudio b r t s).startAt = t)) ∧
    s0.nextStartTime ≤ (UseAudio.playSeq s0 ms).2.nextStartTime ∧
    (UseAudio.playSeq s0 ms).1.Pairwise (fun a c => a.1 + a.2 ≤ c.1) := by
  refine ⟨?_, (UseAudio.playSeq_ge s0 ms h).2.1, UseAudio.playSeq_pairwise s0 ms h⟩
  intro b r t s hs
  obtain ⟨hstart, hadv, hmono, _⟩ := UseAudio.playAudio_cursor b r t s hs
  refine ⟨hstart, hadv, hmono, ?_⟩
  intro hlt
  rw [hstart, max_eq_right (le_of_lt hlt)]

/-- Witness for C2 at a concrete live hook and a two-chunk sequence whose
second chunk arrives after a stall. -/
theorem C2_gapless_playback_witness :
    UseAudio.liveCtx
      (⟨some ⟨24000, UseAudio.CtxState.running⟩, 0, 0, false⟩ : UseAudio.AudioHook) ∧
    (UseAudio.playSeq ⟨some ⟨24000, UseAudio.CtxState.running⟩, 0, 0, false⟩
        [⟨4, 2, 0⟩, ⟨2, 1, 5⟩]).1.Pairwise (fun a c => a.1 + a.2 ≤ c.1) := by
  have hlive : UseAudio.liveCtx
      (⟨some ⟨24000, UseAudio.CtxState.running⟩, 0, 0, false⟩ : UseAudio.AudioHook) :=
    ⟨⟨24000, UseAudio.CtxState.running⟩, rfl, by decide⟩
  exact ⟨hlive, (C2_gapless_playback _ [⟨4, 2, 0⟩, ⟨2, 1, 5⟩] hlive).2.2⟩

/-! ## Claim theorems for the start guard (C3) -/

/-- C3 counterexample: with both sockets CONNECTING (one of each already
created), the StrictMode guard does not fire, so each of two successive
start calls creates another pair of sockets: three audio sockets and
three cognition sockets have been created, not one of each. -/
theorem C3_start_guard_counterexample :
    (Orchestrator.start (Orchestrator.start Orchestrator.baseState)).audioCreated = 3 ∧
    (Orchestrator.start (Orchestrator.start Orchestrator.baseState)).cogCreated = 3 ∧
    Orchestrator.baseState.audioCreated = 1 ∧
    Orchestrator.baseState.cogCreated = 1 ∧
    Orchestrator.baseState.audioWsRef.map Orchestrator.Sock.readyState =
      some Orchestrator.ReadyState.connecting ∧
    Orchestrator.baseState.cognitionWsRef.map Orchestrator.Sock.readyState =
      some Orchestrator.ReadyState.connecting := by
  decide

/-- C3 (amended): a second start while at least one session socket is OPEN
is a no-op on the sockets: no new socket is created, both refs are kept,
and a further start changes nothing more. When both sockets are merely
CONNECTING the guard does not apply (see the counterexample). -/
theorem C3_start_idempotent_when_open (s : Orchestrator.Orch)
    (h : s.audioWsRef.map Orchestrator.Sock.readyState =
           some Orchestrator.ReadyState.opened ∨
         s.cognitionWsRef.map Orchestrator.Sock.readyState =
           some Orchestrator.ReadyState.opened) :
    (Orchestrator.start s).audioCreated = s.audioCreated ∧
    (Orchestrator.start s).cogCreated = s.cogCreated ∧
    (Orchestrator.start s).audioWsRef = s.audioWsRef ∧
    (Orchestrator.start s).cognitionWsRef = s.cognitionWsRef ∧
    Orchestrator.start (Orchestrator.start s) = Orchestrator.start s := by
  have hsome : s.audioWsRef.isSome = true ∨ s.cognitionWsRef.isSome = true := by
    rcases h with h | h
    · left
      obtain ⟨w, hw, _⟩ := Option.map_eq_some'.mp h
      rw [hw]; rfl
    · right
      obtain ⟨w, hw, _⟩ := Option.map_eq_some'.mp h
      rw [hw]; rfl
  cases hu : s.hasUser with
  | false =>
    have h1 : Orchestrator.start s = s := by
      unfold Orchestrator.start
      rw [if_pos hu]
    rw [h1]
    exact ⟨rfl, rfl, rfl, rfl, h1⟩
  | true =>
    have hne : ¬ (s.hasUser = false) := by rw [hu]; exact fun hx => Bool.noConfusion hx
    have h1 : Orchestrator.start s =
        { s with isCleanedUp := false, intentionalClose := false } := by
      unfold Orchestrator.start
      rw [if_neg hne, if_pos ⟨hsome, h⟩]
    have h2 : Orchestrator.start
        ({ s with isCleanedUp := false, intentionalClose := false } : Orchestrator.Orch) =
        { s with isCleanedUp := false, intentionalClose := false } := by
      unfold Orchestrator.start
      rw [if_neg hne, if_pos ⟨hsome, h⟩]
    rw [h1]
    exact ⟨rfl, rfl, rfl, rfl, h2⟩

/-- Witness for C3 at a state whose audio socket is OPEN. -/
theorem C3_start_idempotent_when_open_witness :
    ({ Orchestrator.baseState with
        audioWsRef := some ⟨Orchestrator.ReadyState.opened, ["alice"]⟩ } :
          Orchestrator.Orch).audioWsRef.map Orchestrator.Sock.readyState =
        some Orchestrator.ReadyState.opened ∧
    (Orchestrator.start { Orchestrator.baseState with
        audioWsRef := some ⟨Orchestrator.ReadyState.opened, ["alice"]⟩ }).audioCreated =
      ({ Orchestrator.baseState with
        audioWsRef := some ⟨Orchestrator.ReadyState.opened, ["alice"]⟩ } :
          Orchestrator.Orch).audioCreated := by
  refine ⟨rfl, ?_⟩
  exact (C3_start_idempotent_when_open
    { Orchestrator.baseState with
        audioWsRef := some ⟨Orchestrator.ReadyState.opened, ["alice"]⟩ }
    (Or.inl rfl)).1

/-! ## Claim theorem for the late open callback (C4) -/

/-- C4: once teardown has set the torn-down flag, a late open callback on
either socket sends nothing (no identity message, no envelope), closes
that socket at once, starts no microphone and installs no frame timer. -/
theorem C4_open_after_teardown (u : String) (s : Orchestrator.Orch)
    (aw cw : Orchestrator.Sock)
    (hc : s.isCleanedUp = true)
    (ha : aw.readyState = Orchestrator.ReadyState.opened)
    (hw : cw.readyState = Orchestrator.ReadyState.opened) :
    ((Orchestrator.audioOnOpen u s aw).2.sent = aw.sent ∧
     (Orchestrator.audioOnOpen u s aw).2.readyState = Orchestrator.ReadyState.closing ∧
     (Orchestrator.audioOnOpen u s aw).1.mic = s.mic ∧
     (Orchestrator.audioOnOpen u s aw).1.frameInterval = s.frameInterval) ∧
    ((Orchestrator.cognitionOnOpen u s cw).2.sent = cw.sent ∧
     (Orchestrator.cognitionOnOpen u s cw).2.readyState = Orchestrator.ReadyState.closing ∧
     (Orchestrator.cognitionOnOpen u s cw).1.cognitionStatus = s.cognitionStatus) := by
  unfold Orchestrator.audioOnOpen Orchestrator.cognitionOnOpen Orchestrator.wsClose
  simp [hc, ha, hw]

/-- Witness for C4 at a torn-down state and two just-opened sockets. -/
theorem C4_open_after_teardown_witness :
    ({ Orchestrator.baseState with isCleanedUp := true } :
        Orchestrator.Orch).isCleanedUp = true ∧
    (Orchestrator.audioOnOpen "alice"
        { Orchestrator.baseState with isCleanedUp := true }
        ⟨Orchestrator.ReadyState.opened, []⟩).2.sent = [] := by
  refine ⟨rfl, ?_⟩
  exact (C4_open_after_teardown "alice"
    { Orchestrator.baseState with isCleanedUp := true }
    ⟨Orchestrator.ReadyState.opened, []⟩ ⟨Orchestrator.ReadyState.opened, []⟩
    rfl rfl rfl).1.1

/-! ## Claim theorems for the error handlers (C5) -/

/-- C5 counterexample: a socket-level error while the Activity State is
thinking leaves it at thinking on both handlers; the claimed reset to
listening does not happen. -/
theorem C5_error_reset_counterexample :
    (Orchestrator.audioOnError
        { Orchestrator.baseState with aiState := Orchestrator.AiState.thinking }).aiState =
      Orchestrator.AiState.thinking ∧
    (Orchestrator.cognitionOnError
        { Orchestrator.baseState with aiState := Orchestrator.AiState.thinking }).aiState =
      Orchestrator.AiState.thinking ∧
    Orchestrator.AiState.thinking ≠ Orchestrator.AiState.listening := by
  decide

/-- C5 (amended): on a socket-level error the Activity State is left
unchanged (not reset to listening); the error is logged exactly when the
close was not intentional, the cognition handler also sets the cognition
status to error, and neither handler touches a socket ref or creates a
connection (no reconnect). -/
theorem C5_error_handlers (s : Orchestrator.Orch) :
    (Orchestrator.audioOnError s).aiState = s.aiState ∧
    (Orchestrator.cognitionOnError s).aiState = s.aiState ∧
    (Orchestrator.cognitionOnError s).cognitionStatus = "error" ∧
    (Orchestrator.audioOnError s).audioWsRef = s.audioWsRef ∧
    (Orchestrator.audioOnError s).audioCreated = s.audioCreated ∧
    (Orchestrator.cognitionOnError s).cognitionWsRef = s.cognitionWsRef ∧
    (Orchestrator.cognitionOnError s).cogCreated = s.cogCreated ∧
    (Orchestrator.audioOnError s).loggedErrors =
      s.loggedErrors + (if s.intentionalClose then 0 else 1) := by
  unfold Orchestrator.audioOnError Orchestrator.cognitionOnError
  cases hic : s.intentionalClose <;> simp [hic]

/-! ## Claim theorem for the cognition events (C6) -/

/-- C6: with the component not torn down, a state_update event sets the
Activity State directly to the carried value and schedules no timer; a
reasoning_complete event sets it to thinking and schedules a revert to
listening after 800 ms; a memory_stored event changes nothing. -/
theorem C6_cognition_events (s : Orchestrator.Orch) (ctx cont : String)
    (v : Orchestrator.AiState) :
    (Orchestrator.cognitionOnMessage
        (Orchestrator.CognitionEvent.state_update (some v))
        { s with isCleanedUp := false } =
      ({ s with isCleanedUp := false, aiState := v }, none)) ∧
    (Orchestrator.cognitionOnMessage
        (Orchestrator.CognitionEvent.reasoning_complete ctx)
        { s with isCleanedUp := false } =
      ({ s with isCleanedUp := false, aiState := Orchestrator.AiState.thinking },
        some (Orchestrator.AiState.listening, 800))) ∧
    (Orchestrator.cognitionOnMessage
        (Orchestrator.CognitionEvent.memory_stored cont)
        { s with isCleanedUp := false } =
      ({ s with isCleanedUp := false }, none)) := by
  unfold Orchestrator.cognitionOnMessage
  simp

/-! ## Lemmas about teardown (C7) -/

/-- stopMicrophone always ends with every ref null and isActive false,
leaving the acquisition count alone. -/
lemma UseMicrophone.stopMicrophone_spec (m : MicState) :
    (stopMicrophone m).streamRef = none ∧
    (stopMicrophone m).sourceRef = false ∧
    (stopMicrophone m).workletNodeRef = false ∧
    (stopMicrophone m).audioContextRef = false ∧
    (stopMicrophone m).isActive = false ∧
    (stopMicrophone m).acquiredCount = m.acquiredCount := by
  unfold stopMicrophone
  cases m with
  | mk sr ac wn so ia aq rel =>
    cases sr <;> cases ac <;> cases wn <;> cases so <;> simp

/-- Releasing the microphone twice is the same as releasing it once. -/
lemma UseMicrophone.stopMicrophone_idem (m : MicState) :
    stopMicrophone (stopMicrophone m) = stopMicrophone m := by
  unfold stopMicrophone
  cases m with
  | mk sr ac wn so ia aq rel =>
    cases sr <;> cases ac <;> cases wn <;> cases so <;> simp

/-- Releasing the camera twice is the same as releasing it once. -/
lemma UseCamera.stopCamera_idem (c : CamState) :
    stopCamera (stopCamera c) = stopCamera c := by
  unfold stopCamera
  cases c with
  | mk sr ia aq rel => cases sr <;> simp

/-- Stopping playback twice is the same as stopping it once. -/
lemma UseAudio.stop_idem (s : AudioHook) : stop (stop s) = stop s := by
  unfold stop
  cases s with
  | mk ref next act pl =>
    cases ref with
    | none => simp
    | some c =>
      by_cases hc : c.state = CtxState.closed <;> simp [hc]

/-- The guarded close body of the effect cleanup never raises: the close
envelope is sent only on an OPEN socket, where send cannot throw. -/
lemma Orchestrator.cleanupSockBody_ok (w : Sock) (env : String) :
    ∃ w2, cleanupSockBody w env = Except.ok w2 := by
  unfold cleanupSockBody wsSendE wsClose
  cases hw : w.readyState <;> simp [hw]

/-- Closing a socket through the cleanup twice equals closing it once. -/
lemma Orchestrator.cleanupSock_idem (w : Sock) (env : String) :
    cleanupSock (cleanupSock w env) env = cleanupSock w env := by
  unfold cleanupSock cleanupSockBody wsSendE wsClose
  cases hw : w.readyState <;> simp [hw]

/-- The effect cleanup is idempotent on the whole component state and on
both captured sockets. -/
lemma Orchestrator.cleanup_idem (s : Orch) (aw cw : Sock) :
    cleanup (cleanup s aw cw).1 (cleanup s aw cw).2.1 (cleanup s aw cw).2.2 =
      cleanup s aw cw := by
  unfold cleanup
  simp [cleanupSock_idem, UseMicrophone.stopMicrophone_idem,
    UseCamera.stopCamera_idem, UseAudio.stop_idem]

/-! ## Claim theorems for teardown (C7) -/

/-- C7 counterexample: the logout path sends with no guard and no catch,
so logging out while the audio socket is still CONNECTING throws an
InvalidStateError instead of being suppressed. -/
theorem C7_logout_throws_counterexample :
    Orchestrator.handleLogoutE Orchestrator.baseState =
      Except.error "InvalidStateError" ∧
    Orchestrator.baseState.audioWsRef.map Orchestrator.Sock.readyState =
      some Orchestrator.ReadyState.connecting := by
  constructor
  · rfl
  · rfl

/-- C7 (amended): the effect-cleanup teardown never throws (its socket
close body cannot raise and every error would be suppressed by the catch)
and is idempotent: a second cleanup changes nothing, in particular it
releases no microphone or camera handle a second time. The logout path is
the exception: it throws on a CONNECTING socket (see the counterexample). -/
theorem C7_cleanup_no_throw_idempotent (s : Orchestrator.Orch)
    (aw cw : Orchestrator.Sock) :
    (∀ (w : Orchestrator.Sock) (env : String),
        ∃ w2, Orchestrator.cleanupSockBody w env = Except.ok w2) ∧
    Orchestrator.cleanup (Orchestrator.cleanup s aw cw).1
        (Orchestrator.cleanup s aw cw).2.1 (Orchestrator.cleanup s aw cw).2.2 =
      Orchestrator.cleanup s aw cw ∧
    (Orchestrator.cleanup (Orchestrator.cleanup s aw cw).1
        (Orchestrator.cleanup s aw cw).2.1
        (Orchestrator.cleanup s aw cw).2.2).1.mic.releasedHandles =
      (Orchestrator.cleanup s aw cw).1.mic.releasedHandles ∧
    (Orchestrator.cleanup (Orchestrator.cleanup s aw cw).1
        (Orchestrator.cleanup s aw cw).2.1
        (Orchestrator.cleanup s aw cw).2.2).1.camera.releasedHandles =
      (Orchestrator.cleanup s aw cw).1.camera.releasedHandles := by
  refine ⟨Orchestrator.cleanupSockBody_ok, Orchestrator.cleanup_idem s aw cw, ?_, ?_⟩
  · rw [Orchestrator.cleanup_idem s aw cw]
  · rw [Orchestrator.cleanup_idem s aw cw]

/-! ## Claim theorems for microphone acquisition (C8) -/

/-- C8 counterexample: acquiring twice without releasing is not a no-op:
two platform handles have been handed out and none released, the adapter
ref holds only the second, and a later release stops only the second, so
the first handle leaks. -/
theorem C8_double_acquire_counterexample :
    (UseMicrophone.startMicrophone (UseMicrophone.startMicrophone
        ⟨none, false, false, false, false, 0, []⟩)).acquiredCount = 2 ∧
    (UseMicrophone.startMicrophone (UseMicrophone.startMicrophone
        ⟨none, false, false, false, false, 0, []⟩)).releasedHandles = [] ∧
    (UseMicrophone.startMicrophone (UseMicrophone.startMicrophone
        ⟨none, false, false, false, false, 0, []⟩)).liveHandles ≠ 1 ∧
    (UseMicrophone.startMicrophone (UseMicrophone.startMicrophone
        ⟨none, false, false, false, false, 0, []⟩)).streamRef = some 1 ∧
    (UseMicrophone.stopMicrophone (UseMicrophone.startMicrophone
        (UseMicrophone.startMicrophone
          ⟨none, false, false, false, false, 0, []⟩))).releasedHandles = [1] := by
  decide

/-- C8 (amended): a second acquire while a handle is already held is not
idempotent: it acquires one more platform handle, overwrites the stored
ref with the new handle, releases nothing, and a subsequent release stops
only the new handle, never the previously held one, which leaks. -/
theorem C8_second_acquire_leaks (m : UseMicrophone.MicState) (h : ℕ)
    (_hm : m.streamRef = some h) (hlt : h < m.acquiredCount) :
    (UseMicrophone.startMicrophone m).acquiredCount = m.acquiredCount + 1 ∧
    (UseMicrophone.startMicrophone m).streamRef = some m.acquiredCount ∧
    (UseMicrophone.startMicrophone m).releasedHandles = m.releasedHandles ∧
    (UseMicrophone.stopMicrophone (UseMicrophone.startMicrophone m)).releasedHandles =
      m.releasedHandles ++ [m.acquiredCount] ∧
    m.acquiredCount ≠ h := by
  refine ⟨rfl, rfl, rfl, ?_, by omega⟩
  unfold UseMicrophone.startMicrophone UseMicrophone.stopMicrophone
  simp

/-- Witness for C8 with one handle already held. -/
theorem C8_second_acquire_leaks_witness :
    (⟨some 0, true, true, true, true, 1, []⟩ :
        UseMicrophone.MicState).streamRef = some 0 ∧
    0 < (⟨some 0, true, true, true, true, 1, []⟩ :
        UseMicrophone.MicState).acquiredCount ∧
    (UseMicrophone.startMicrophone
        ⟨some 0, true, true, true, true, 1, []⟩).acquiredCount = 2 := by
  refine ⟨rfl, by decide, ?_⟩
  exact (C8_second_acquire_leaks ⟨some 0, true, true, true, true, 1, []⟩ 0
    rfl (by decide)).1

/-! ## Claim theorem for the mute toggle (C9) -/

/-- C9: toggling mute to true stops exactly the microphone adapter (the
socket refs, the frame timer, the camera and the creation counts are
untouched and the audio socket is not closed); toggling it back to false
while the audio socket is OPEN restarts the microphone on the same socket
without creating a connection, and its callback then sends an audio
envelope over that same socket. -/
theorem C9_mute_toggle_scope (s : Orchestrator.Orch) (l : List String) :
    ((Orchestrator.muteEffect { s with isMuted := true }).audioWsRef = s.audioWsRef ∧
     (Orchestrator.muteEffect { s with isMuted := true }).cognitionWsRef = s.cognitionWsRef ∧
     (Orchestrator.muteEffect { s with isMuted := true }).frameInterval = s.frameInterval ∧
     (Orchestrator.muteEffect { s with isMuted := true }).camera = s.camera ∧
     (Orchestrator.muteEffect { s with isMuted := true }).playback = s.playback ∧
     (Orchestrator.muteEffect { s with isMuted := true }).audioCreated = s.audioCreated ∧
     (Orchestrator.muteEffect { s with isMuted := true }).cogCreated = s.cogCreated ∧
     (Orchestrator.muteEffect { s with isMuted := true }).mic.streamRef = none ∧
     (Orchestrator.muteEffect { s with isMuted := true }).mic.isActive = false) ∧
    (let s0 : Orchestrator.Orch :=
      { s with isMuted := false, audioWsRef := some ⟨Orchestrator.ReadyState.opened, l⟩ }
     (Orchestrator.muteEffect s0).audioWsRef =
        some ⟨Orchestrator.ReadyState.opened, l⟩ ∧
     (Orchestrator.muteEffect s0).cognitionWsRef = s.cognitionWsRef ∧
     (Orchestrator.muteEffect s0).frameInterval = s.frameInterval ∧
     (Orchestrator.muteEffect s0).camera = s.camera ∧
     (Orchestrator.muteEffect s0).audioCreated = s.audioCreated ∧
     (Orchestrator.muteEffect s0).mic.isActive = true ∧
     (Orchestrator.micOnData (Orchestrator.muteEffect s0)).audioWsRef =
        some ⟨Orchestrator.ReadyState.opened, l ++ ["type:audio"]⟩ ∧
     (Orchestrator.micOnData (Orchestrator.muteEffect s0)).audioCreated =
        s.audioCreated) := by
  obtain ⟨hsr, _, _, _, hia, _⟩ := UseMicrophone.stopMicrophone_spec s.mic
  constructor
  · exact ⟨rfl, rfl, rfl, rfl, rfl, rfl, rfl, hsr, hia⟩
  · refine ⟨rfl, rfl, rfl, rfl, rfl, rfl, ?_, ?_⟩
    · unfold Orchestrator.micOnData Orchestrator.muteEffect
      simp [UseMicrophone.startMicrophone]
    · unfold Orchestrator.micOnData Orchestrator.muteEffect
      simp [UseMicrophone.startMicrophone]

/-! ## Claim theorem for context reuse (C10) -/

/-- C10: while a non-closed output context exists, playAudio reuses it
unchanged whatever sample rate the chunk declares: the played-through
context keeps its own rate, the ref still holds that rate afterwards, yet
the decoded buffer is built at the declared rate; the declared rate (and
a cursor reset to 0) takes effect only when the ref is empty or the
context is closed. -/
theorem C10_context_reuse (s : UseAudio.AudioHook) (c : UseAudio.AudioCtx)
    (rate b : ℕ) (t : ℚ)
    (hc : s.audioContextRef = some c) (hlive : c.state ≠ UseAudio.CtxState.closed) :
    UseAudio.getAudioContext rate s = (c, s) ∧
    (UseAudio.playAudio b rate t s).ctx.sampleRate = c.sampleRate ∧
    (UseAudio.playAudio b rate t s).hook.audioContextRef.map UseAudio.AudioCtx.sampleRate =
      some c.sampleRate ∧
    (UseAudio.playAudio b rate t s).buffer.sampleRate = rate ∧
    (UseAudio.playAudio b rate t s).hook.nextStartTime =
      (UseAudio.playAudio b rate t s).startAt +
        (UseAudio.playAudio b rate t s).buffer.duration ∧
    (∀ s2 : UseAudio.AudioHook, s2.audioContextRef = none →
        (UseAudio.getAudioContext rate s2).1 = ⟨rate, UseAudio.CtxState.running⟩ ∧
        (UseAudio.getAudioContext rate s2).2.nextStartTime = 0) ∧
    (∀ (s2 : UseAudio.AudioHook) (c2 : UseAudio.AudioCtx),
        s2.audioContextRef = some c2 → c2.state = UseAudio.CtxState.closed →
        (UseAudio.getAudioContext rate s2).1 = ⟨rate, UseAudio.CtxState.running⟩ ∧
        (UseAudio.getAudioContext rate s2).2.nextStartTime = 0) := by
  have hget : UseAudio.getAudioContext rate s = (c, s) := by
    unfold UseAudio.getAudioContext
    rw [hc]
    simp [hlive]
  refine ⟨hget, ?_, ?_, ?_, ?_, ?_, ?_⟩
  · unfold UseAudio.playAudio
    rw [hget]
    by_cases hsusp : c.state = UseAudio.CtxState.suspended <;> simp [hsusp]
  · unfold UseAudio.playAudio
    rw [hget]
    by_cases hsusp : c.state = UseAudio.CtxState.suspended <;> simp [hsusp]
  · unfold UseAudio.playAudio
    rw [hget]
  · unfold UseAudio.playAudio
    rw [hget]
  · intro s2 h2
    unfold UseAudio.getAudioContext
    rw [h2]
    exact ⟨rfl, rfl⟩
  · intro s2 c2 h2 hcl
    unfold UseAudio.getAudioContext
    rw [h2]
    simp [hcl]

/-- Witness for C10: a live 24 kHz context reused for a chunk declaring
16 kHz. -/
theorem C10_context_reuse_witness :
    (⟨some ⟨24000, UseAudio.CtxState.running⟩, 5, 0, true⟩ :
        UseAudio.AudioHook).audioContextRef =
      some ⟨24000, UseAudio.CtxState.running⟩ ∧
    (⟨24000, UseAudio.CtxState.running⟩ : UseAudio.AudioCtx).state ≠
      UseAudio.CtxState.closed ∧
    (UseAudio.playAudio 10 16000 2
        ⟨some ⟨24000, UseAudio.CtxState.running⟩, 5, 0, true⟩).ctx.sampleRate = 24000 ∧
    (UseAudio.playAudio 10 16000 2
        ⟨some ⟨24000, UseAudio.CtxState.running⟩, 5, 0, true⟩).buffer.sampleRate = 16000 := by
  refine ⟨rfl, by decide, ?_, ?_⟩
  · exact (C10_context_reuse ⟨some ⟨24000, UseAudio.CtxState.running⟩, 5, 0, true⟩
      ⟨24000, UseAudio.CtxState.running⟩ 16000 10 2 rfl (by decide)).2.1
  · exact (C10_context_reuse ⟨some ⟨24000, UseAudio.CtxState.running⟩, 5, 0, true⟩
      ⟨24000, UseAudio.CtxState.running⟩ 16000 10 2 rfl (by decide)).2.2.2.1
